import Mathlib

/-!
# BMXNet, smd_hpi/src/q_convolution.cc

A shallow embedding of the quantized convolution shell: the two overloads of
mshadow::QConvolutionForward, mxnet::op::CreateOp<cpu> and
mxnet::op::QConvolutionProp::CreateOperatorEx.

Conventions of the embedding.

* A failed CHECK / CHECK_EQ and LOG(FATAL) end the call (dmlc raises
  dmlc::Error); they are the constructor Failure.fatal, carrying the message
  streamed into the macro.
* Index reads (operator[] of TShape, Shape<dim> and std::vector, none of which
  is bounds checked) return an Option: none is a read past the end, whose value
  C++ leaves unspecified. Such a value equals no number: it passes no CHECK_EQ
  and satisfies no comparison, and it is handed on unchanged where the code
  only passes it on.
* Code that touches tensors or calls collaborators runs in Exec, which threads
  a state holding a trace of the calls made, so that orderings and absences
  can be stated.
-/

/-! ## Failures and instrumented runs -/

/-- How a call can end without returning a value. -/
inductive Failure where
  /-- A failed CHECK, CHECK_EQ or a LOG(FATAL), with its message. -/
  | fatal (msg : String)
  /-- An int argument was read past the end of a vector: there is no call to describe. -/
  | undefined
  deriving DecidableEq

/-- An instrumented computation: from a state to an outcome and the state reached.
A failure keeps the state reached so far. -/
def Exec (σ α : Type) : Type := σ → Except Failure α × σ

namespace Exec

/-- Return a value, leaving the state alone. -/
def ret {σ α : Type} (a : α) : Exec σ α := fun s => (.ok a, s)

/-- Sequencing: a failure of the first part ends the run. -/
def andThen {σ α β : Type} (x : Exec σ α) (f : α → Exec σ β) : Exec σ β := fun s =>
  match x s with
  | (.ok a, s1) => f a s1
  | (.error e, s1) => (.error e, s1)

/-- End the run with a failure. -/
def fail {σ α : Type} (e : Failure) : Exec σ α := fun s => (.error e, s)

/-- Change the state. -/
def update {σ : Type} (f : σ → σ) : Exec σ Unit := fun s => (.ok (), f s)

/-- Run a pure fallible computation inside Exec. -/
def lift {σ α : Type} (x : Except Failure α) : Exec σ α := fun s => (x, s)

end Exec

instance (σ : Type) : Monad (Exec σ) where
  pure := Exec.ret
  bind := Exec.andThen

/-- CHECK(cond) << msg. -/
def CHECK (cond : Bool) (msg : String) : Except Failure Unit :=
  if cond then .ok () else .error (.fatal msg)

/-- CHECK_EQ(x, v) << msg, on a value obtained by an index read. -/
def CHECK_EQ (x : Option Nat) (v : Nat) (msg : String) : Except Failure Unit :=
  if x = some v then .ok () else .error (.fatal msg)

/-- LOG(FATAL) << msg: never returns. -/
def LOG_FATAL (msg : String) : Except Failure Unit := .error (.fatal msg)

/-- LOG(INFO) << msg: writes to the log stream, no effect on the caller. -/
def LOG_INFO (_msg : String) : Except Failure Unit := .ok ()

/-! ## Shapes, tensors, parameters -/

namespace mxnet

/-- The tuple type nnvm::TShape. -/
abbrev TShape : Type := List Nat

/-- TShape::ndim(). -/
def TShape.ndim (s : TShape) : Nat := s.length

/-- The device context handed to operator creation. -/
structure Context where
  dev_type : Nat
  dev_id : Int
  deriving DecidableEq

namespace op

/-- Modelled from the spec: QConvolutionParam is declared in q_convolution-inl.h,
which is not under src/. The fields are the configuration of section 6 of the
spec (kernel, padding, stride, number of output channels, number of groups,
bias flag) together with dilate, under the names q_convolution.cc reads them by. -/
structure QConvolutionParam where
  kernel : TShape
  stride : TShape
  dilate : TShape
  pad : TShape
  num_filter : Nat
  num_group : Nat
  no_bias : Bool
  deriving DecidableEq

end op
end mxnet

namespace mshadow

/-- A Tensor<cpu, dim, DType>: its elements and its Shape<dim>, which has exactly
dim entries. -/
structure Tensor (dim : Nat) (V : Type) where
  dptr_ : List V
  shape_ : List Nat
  rank : shape_.length = dim

/-- The type flags of mshadow/base.h. -/
def kFloat32 : Int := 0

/-- Type flag of double. -/
def kFloat64 : Int := 1

/-- Type flag of half_t. -/
def kFloat16 : Int := 2

/-- Type flag of uint8_t. -/
def kUint8 : Int := 3

/-- Type flag of int32_t. -/
def kInt32 : Int := 4

/-- Element types a template can be instantiated at. -/
inductive DType where
  | float
  | double
  | half_t
  | uint8_t
  | int32_t
  deriving DecidableEq

/-- The five tensor arguments of QConvolutionForward. -/
inductive Arg where
  | data
  | wmat
  | in_col
  | temp_dst
  | out
  deriving DecidableEq

/-- What a forward call does to tensors and to the binary layer. -/
inductive Event where
  /-- A read of t.shape_[idx] (size(idx) is shape_[idx]) and the value it gave:
  none when idx is not below the rank of t. -/
  | shape_read (t : Arg) (idx : Nat) (value : Option Nat)
  /-- The constructor call new BinaryLayer(...). -/
  | BinaryLayer_new
  /-- The call binary_layer->set_input_as_col(t): reads the elements of t. -/
  | set_input_as_col (t : Arg)
  /-- The call binary_layer->set_weights(t): reads the elements of t. -/
  | set_weights (t : Arg)
  /-- The call xnor_cpu::xnor_forward(binary_layer). -/
  | xnor_forward
  /-- The call binary_layer->get_output(t): writes the elements of t. -/
  | get_output (t : Arg)
  deriving DecidableEq

end mshadow

namespace mxnet.op

open mshadow

/-- Modelled from the spec: BinaryLayer is declared in binary_layer.h, which is not
under src/. It keeps the eleven constructor arguments, named after the comments
at the call in q_convolution.cc (m, n, k are the matrix dimensions: weights m*n,
column input n*k, result m*k), and the two matrices loaded into it, which the
Binarizer/Packer of section 4.2 of the spec turns into packed form. -/
structure BinaryLayer (V : Type) where
  input_depth : Option Nat
  input_x : Option Nat
  input_y : Option Nat
  num_filters : Option Nat
  weight_x : Option Nat
  weight_y : Option Nat
  padding_x : Option Nat
  padding_y : Option Nat
  m : Option Nat
  n : Option Nat
  k : Option Nat
  input : Option (Tensor 2 V)
  weights : Option (Tensor 2 V)

end mxnet.op

namespace mshadow

open mxnet.op

/-- The state of one forward call: the trace so far, the local binary_layer
(none until it is constructed) and the contents of the output tensor. -/
structure ForwardState (V : Type) where
  trace : List Event
  binary_layer : Option (BinaryLayer V)
  out : Tensor 4 V

/-- Append an event to the trace. -/
def emit {V : Type} (e : Event) : Exec (ForwardState V) Unit :=
  Exec.update fun s => { s with trace := s.trace ++ [e] }

/-- The read t.shape_[idx] (also t.size(idx)) of the argument called name. -/
def Tensor.shape_at {V : Type} {dim : Nat} (name : Arg) (t : Tensor dim V) (idx : Nat) :
    Exec (ForwardState V) (Option Nat) := do
  emit (.shape_read name idx t.shape_[idx]?)
  pure t.shape_[idx]?

/-- The constructor call new BinaryLayer(...): binary_layer now holds a layer with
these dimensions and nothing loaded. -/
def BinaryLayer_new {V : Type}
    (input_depth input_x input_y num_filters weight_x weight_y padding_x padding_y m n k :
      Option Nat) : Exec (ForwardState V) Unit := do
  emit .BinaryLayer_new
  let layer : BinaryLayer V :=
    { input_depth := input_depth, input_x := input_x, input_y := input_y,
      num_filters := num_filters, weight_x := weight_x, weight_y := weight_y,
      padding_x := padding_x, padding_y := padding_y, m := m, n := n, k := k,
      input := none, weights := none }
  Exec.update fun s => { s with binary_layer := some layer }

/-- The call binary_layer->set_input_as_col(t). -/
def set_input_as_col {V : Type} (name : Arg) (t : Tensor 2 V) : Exec (ForwardState V) Unit := do
  emit (.set_input_as_col name)
  Exec.update fun s =>
    { s with binary_layer := s.binary_layer.map fun l => { l with input := some t } }

/-- The call binary_layer->set_weights(t). -/
def set_weights {V : Type} (name : Arg) (t : Tensor 2 V) : Exec (ForwardState V) Unit := do
  emit (.set_weights name)
  Exec.update fun s =>
    { s with binary_layer := s.binary_layer.map fun l => { l with weights := some t } }

/-- The message of both stride checks. -/
def stride_msg : String := "binary convolution currently only supported with stride==1"

/-- The float overload of QConvolutionForward (q_convolution.cc, lines 26 to 62).
The constructor arguments are read in the order they are written. The calls to
xnor_forward and get_output are commented out in the source and so are absent here. -/
def QConvolutionForward {V : Type} (data : Tensor 4 V) (wmat : Tensor 2 V)
    (in_col : Tensor 2 V) (temp_dst : Tensor 2 V) (_out : Tensor 4 V)
    (param : QConvolutionParam) : Exec (ForwardState V) Unit := do
  Exec.lift (CHECK_EQ param.stride[0]? 1 stride_msg)
  Exec.lift (CHECK_EQ param.stride[1]? 1 stride_msg)
  let a_depth ← data.shape_at .data 1
  let a_x ← data.shape_at .data 2
  let a_y ← data.shape_at .data 3
  let a_m ← wmat.shape_at .wmat 1
  let a_n ← wmat.shape_at .wmat 2
  let a_k ← temp_dst.shape_at .temp_dst 2
  BinaryLayer_new a_depth a_x a_y (some param.num_filter)
    param.kernel[0]? param.kernel[1]? param.pad[0]? param.pad[1]? a_m a_n a_k
  set_input_as_col .in_col in_col
  set_weights .wmat wmat

/-- The generic overload template<typename DType> QConvolutionForward (lines 64 to 72). -/
def QConvolutionForward_generic {V : Type} (_data : Tensor 4 V) (_wmat : Tensor 2 V)
    (_in_col : Tensor 2 V) (_temp_dst : Tensor 2 V) (_out : Tensor 4 V)
    (_param : QConvolutionParam) : Exec (ForwardState V) Unit := do
  Exec.lift (CHECK false "only float supported")

/-- Overload resolution for a call QConvolutionForward(data, wmat, in_col, temp_dst,
out, param) on tensors of element type T: the non-template float overload wins for
float, the template is instantiated for every other type. -/
def QConvolutionForward_call {V : Type} (T : DType) (data : Tensor 4 V) (wmat : Tensor 2 V)
    (in_col : Tensor 2 V) (temp_dst : Tensor 2 V) (out : Tensor 4 V)
    (param : QConvolutionParam) : Exec (ForwardState V) Unit :=
  if T = .float then QConvolutionForward data wmat in_col temp_dst out param
  else QConvolutionForward_generic data wmat in_col temp_dst out param

/-- The state a forward call starts in: nothing traced, no layer, out as the caller
passed it. -/
def ForwardState.init {V : Type} (out : Tensor 4 V) : ForwardState V :=
  { trace := [], binary_layer := none, out := out }

end mshadow

namespace mxnet.op

open mshadow

/-- Modelled from the spec: the operator classes QConvolutionOp (q_convolution-inl.h),
MKLConvolutionOp and NNPACKConvolutionOp are declared in headers that are not
under src/. An operator is the class template it instantiates, the element type
it is instantiated at and the parameters its constructor was given. -/
inductive Operator where
  | QConvolutionOp (T : DType) (param : QConvolutionParam)
  | MKLConvolutionOp (T : DType) (param : QConvolutionParam)
  | NNPACKConvolutionOp (T : DType) (param : QConvolutionParam)
  deriving DecidableEq

/-- The preprocessor switches q_convolution.cc is compiled under. -/
structure Build where
  MXNET_USE_MKL2017 : Bool
  MXNET_USE_NNPACK : Bool
  deriving DecidableEq

/-- Modelled from the spec: the macro MSHADOW_REAL_TYPE_SWITCH(type, DType, body) of
mshadow/base.h is not under src/. Inbound tensors are floating-point and non-float
element types must be rejected (sections 6 and 7): the body runs with DType bound
to float, double or half_t for the three floating-point flags, and every other
flag is a LOG(FATAL). The body is a statement assigning a variable: it is given as
the new value of that variable, and otherwise is the value the variable keeps
when no body runs. -/
def MSHADOW_REAL_TYPE_SWITCH {α : Type} (type : Int) (body : DType → Except Failure α)
    (otherwise : α) : Except Failure α :=
  if type = kFloat32 then body .float
  else if type = kFloat64 then body .double
  else if type = kFloat16 then body .half_t
  else if type = kUint8 then do
    LOG_FATAL "This operation only support floating point types not uint8"
    pure otherwise
  else if type = kInt32 then do
    LOG_FATAL "This operation only support floating point types, not int32"
    pure otherwise
  else do
    LOG_FATAL ("Unknown type enum " ++ toString type)
    pure otherwise

/-- The message of the MKL branch. -/
def mkl_msg : String := "QConvolution not supported with MKL"

/-- The message of the NNPACK branch. -/
def nnpack_msg : String := "QConvolution not supported with NNPACK"

/-- The specialization CreateOp<cpu> (q_convolution.cc, lines 81 to 122), compiled under
build. The result is the Operator pointer returned, none being NULL. The text logged
at line 100 starts with MKLConvolutionOp<cpu, float>::getName(), of a header that is not
under src/; logging has no effect on the result. -/
def CreateOp (build : Build) (param : QConvolutionParam) (dtype : Int)
    (in_shape : List TShape) (_out_shape : List TShape) (_ctx : Context) :
    Except Failure (Option Operator) := do
  let mut op : Option Operator := none
  if build.MXNET_USE_MKL2017 then
    if (param.dilate[0]? == some 1 && param.dilate[1]? == some 1)
        && param.kernel.ndim == 2 then
      LOG_FATAL mkl_msg
      if dtype = kFloat32 then
        return some (.MKLConvolutionOp .float param)
      else if dtype = kFloat64 then
        return some (.MKLConvolutionOp .double param)
    LOG_INFO " Skip MKL optimization"
  if build.MXNET_USE_NNPACK then
    let batch_size : Option Nat := in_shape[0]?.bind fun s => s[0]?
    if (param.dilate[0]? == some 1 && param.dilate[1]? == some 1)
        && param.kernel.ndim == 2 && (!param.no_bias)
        && param.num_group == 1 && (batch_size == some 1 ||
        ((batch_size.any fun b => b > 1) && (param.stride[0]? == some 1) &&
        (param.stride[1]? == some 1))) then
      LOG_FATAL nnpack_msg
      if dtype = kFloat32 then
        return some (.NNPACKConvolutionOp .float param)
  op ← MSHADOW_REAL_TYPE_SWITCH dtype (fun T => pure (some (.QConvolutionOp T param))) op
  return op

/-- The calls CreateOperatorEx makes to its collaborators. -/
inductive Call where
  | InferType
  | InferShape
  | DO_BIND_DISPATCH
  deriving DecidableEq

/-- What InferType or InferShape leaves behind: the bool returned and the three vectors
it was given by pointer (the inputs, which it may fill in, the outputs and the
auxiliary states). -/
structure Inferred (α : Type) where
  result : Bool
  ins : List α
  outs : List α
  aux : List α

/-- The type of CreateOp<xpu>. -/
abbrev CreateOpFn : Type :=
  QConvolutionParam → Int → List TShape → List TShape → Context → Except Failure (Option Operator)

/-- The class QConvolutionProp, as far as CreateOperatorEx uses it: the stored
parameters and the two inference methods, which are defined in q_convolution-inl.h
(not under src/) and are taken as they come. Either may itself fail a CHECK. -/
structure QConvolutionProp where
  param_ : QConvolutionParam
  InferType : List Int → Except Failure (Inferred Int)
  InferShape : List TShape → Except Failure (Inferred TShape)

/-- Make a call to a collaborator, recording it first. -/
def call {α : Type} (c : Call) (x : Except Failure α) : Exec (List Call) α := do
  Exec.update fun t => t ++ [c]
  Exec.lift x

/-- The method QConvolutionProp::CreateOperatorEx (q_convolution.cc, lines 125 to 133).
The macro DO_BIND_DISPATCH of operator_common.h is not under src/ and is a
parameter: it is handed the method CreateOp and the arguments of the call, and
decides from ctx which specialization, if any, is called. -/
def QConvolutionProp.CreateOperatorEx (self : QConvolutionProp) (build : Build)
    (DO_BIND_DISPATCH : CreateOpFn → CreateOpFn)
    (ctx : Context) (in_shape : List TShape) (in_type : List Int) :
    Exec (List Call) (Option Operator) := do
  let types ← call .InferType (self.InferType in_type)
  Exec.lift (CHECK types.result "InferType(in_type, &out_type, &aux_type)")
  let shapes ← call .InferShape (self.InferShape in_shape)
  Exec.lift (CHECK shapes.result "InferShape(in_shape, &out_shape, &aux_shape)")
  match types.ins[0]? with
  | none => Exec.fail .undefined
  | some dtype =>
    call .DO_BIND_DISPATCH
      (DO_BIND_DISPATCH (CreateOp build) self.param_ dtype shapes.ins shapes.outs ctx)

end mxnet.op

namespace Demo

open mshadow mxnet.op

/-- A 1x1x3x3 activation tensor. -/
def data : Tensor 4 Int := ⟨[1, -2, 3, -4, 5, -6, 7, -8, 9], [1, 1, 3, 3], rfl⟩

/-- A weight matrix with M = 2 rows and K = 4 columns. -/
def wmat : Tensor 2 Int := ⟨[1, -1, 1, -1, -1, 1, 1, 1], [2, 4], rfl⟩

/-- A column matrix with K = 4 rows and P = 5 columns. -/
def in_col : Tensor 2 Int := ⟨List.replicate 20 1, [4, 5], rfl⟩

/-- A result matrix with M = 2 rows and P = 5 columns. -/
def temp_dst : Tensor 2 Int := ⟨List.replicate 10 0, [2, 5], rfl⟩

/-- An output tensor holding the previous contents 7. -/
def out : Tensor 4 Int := ⟨List.replicate 10 7, [1, 2, 1, 5], rfl⟩

/-- A 2x2 kernel with stride 1, no padding, dilation 1. -/
def param : QConvolutionParam :=
  { kernel := [2, 2], stride := [1, 1], dilate := [1, 1], pad := [0, 0],
    num_filter := 2, num_group := 1, no_bias := false }

/-- The same configuration with dilation (2,2). -/
def dilated : QConvolutionParam := { param with dilate := [2, 2] }

/-- The same configuration with stride (2,1). -/
def strided : QConvolutionParam := { param with stride := [2, 1] }

/-- A cpu context. -/
def ctx : mxnet.Context := { dev_type := 1, dev_id := 0 }

/-- The shapes of data, weight and bias for the configuration param. -/
def in_shape : List mxnet.TShape := [[1, 1, 3, 3], [2, 1, 2, 2], [2]]

/-- A build with neither MKL nor NNPACK. -/
def plain : Build := { MXNET_USE_MKL2017 := false, MXNET_USE_NNPACK := false }

/-- A property object whose inference succeeds: every type is the first input type,
and the output shape is that of a 2x2 kernel on a 3x3 input. -/
def prop : QConvolutionProp :=
  { param_ := param,
    InferType := fun ts => .ok { result := true, ins := ts, outs := ts.take 1, aux := [] },
    InferShape := fun ss => .ok { result := true, ins := ss, outs := [[1, 2, 2, 2]], aux := [] } }

/-- A property object whose type inference returns false. -/
def prop_no_type : QConvolutionProp :=
  { prop with InferType := fun ts => .ok { result := false, ins := ts, outs := [], aux := [] } }

/-- A property object whose shape inference returns false. -/
def prop_no_shape : QConvolutionProp :=
  { prop with InferShape := fun ss => .ok { result := false, ins := ss, outs := [], aux := [] } }

/-- A dispatch that binds every context to the cpu specialization. -/
def bind_cpu : CreateOpFn → CreateOpFn := fun Method => Method

end Demo

/-! ## Lemmas on the runs -/

namespace mshadow

open mxnet.op

/-- The layer a float forward call leaves behind when the stride checks pass. -/
theorem forward_run_pass {V : Type} (data : Tensor 4 V) (wmat in_col temp_dst : Tensor 2 V)
    (out : Tensor 4 V) (param : QConvolutionParam) (s : ForwardState V)
    (h0 : param.stride[0]? = some 1) (h1 : param.stride[1]? = some 1) :
    QConvolutionForward data wmat in_col temp_dst out param s =
      (.ok (), ForwardState.mk (s.trace ++
          [.shape_read .data 1 (data.shape_[1]?), .shape_read .data 2 (data.shape_[2]?),
           .shape_read .data 3 (data.shape_[3]?), .shape_read .wmat 1 (wmat.shape_[1]?),
           .shape_read .wmat 2 (wmat.shape_[2]?), .shape_read .temp_dst 2 (temp_dst.shape_[2]?),
           .BinaryLayer_new, .set_input_as_col .in_col, .set_weights .wmat])
        (some (BinaryLayer.mk (data.shape_[1]?) (data.shape_[2]?) (data.shape_[3]?)
          (some param.num_filter) (param.kernel[0]?) (param.kernel[1]?) (param.pad[0]?) (param.pad[1]?)
          (wmat.shape_[1]?) (wmat.shape_[2]?) (temp_dst.shape_[2]?) (some in_col) (some wmat)))
        s.out) := by
  simp [QConvolutionForward, bind, Exec.andThen, Exec.lift, CHECK_EQ, h0, h1, Tensor.shape_at,
    emit, Exec.update, pure, Exec.ret, BinaryLayer_new, set_input_as_col, set_weights]

/-- A float forward call whose stride is not (1,1) ends at the stride check. -/
theorem forward_run_fail {V : Type} (data : Tensor 4 V) (wmat in_col temp_dst : Tensor 2 V)
    (out : Tensor 4 V) (param : QConvolutionParam) (s : ForwardState V)
    (h : param.stride[0]? ≠ some 1 ∨ param.stride[1]? ≠ some 1) :
    QConvolutionForward data wmat in_col temp_dst out param s =
      (.error (.fatal stride_msg), s) := by
  by_cases h0 : param.stride[0]? = some 1
  · have h1 : param.stride[1]? ≠ some 1 := by
      rcases h with h | h
      · exact absurd h0 h
      · exact h
    simp [QConvolutionForward, bind, Exec.andThen, Exec.lift, CHECK_EQ, h0, h1]
  · simp [QConvolutionForward, bind, Exec.andThen, Exec.lift, CHECK_EQ, h0]

end mshadow

namespace mxnet.op

open mshadow

/-- The condition of the MKL branch, as a proposition. -/
theorem mkl_cond_iff (param : QConvolutionParam) :
    (((param.dilate[0]? == some 1 && param.dilate[1]? == some 1)
        && param.kernel.ndim == 2) = true) ↔
      (param.dilate[0]? = some 1 ∧ param.dilate[1]? = some 1 ∧ param.kernel.ndim = 2) := by
  simp [and_assoc]

/-- Without MKL and NNPACK, CreateOp is the real-type switch around the constructor call. -/
theorem CreateOp_plain (param : QConvolutionParam) (dtype : Int)
    (in_shape out_shape : List TShape) (ctx : Context) :
    CreateOp ⟨false, false⟩ param dtype in_shape out_shape ctx =
      MSHADOW_REAL_TYPE_SWITCH dtype (fun T => pure (some (.QConvolutionOp T param))) none := by
  simp [CreateOp]

/-- With MKL, a 2-D kernel with dilation (1,1) is refused whatever dtype is. -/
theorem CreateOp_mkl_hit (build : Build) (param : QConvolutionParam) (dtype : Int)
    (in_shape out_shape : List TShape) (ctx : Context)
    (hb : build.MXNET_USE_MKL2017 = true)
    (hc : param.dilate[0]? = some 1 ∧ param.dilate[1]? = some 1 ∧ param.kernel.ndim = 2) :
    CreateOp build param dtype in_shape out_shape ctx = .error (.fatal mkl_msg) := by
  obtain ⟨h0, h1, h2⟩ := hc
  simp [CreateOp, hb, h0, h1, h2, LOG_FATAL, bind, Except.bind]

/-- With MKL, every other parameter set reaches the real-type switch. -/
theorem CreateOp_mkl_skip (build : Build) (param : QConvolutionParam) (dtype : Int)
    (in_shape out_shape : List TShape) (ctx : Context)
    (hb : build.MXNET_USE_MKL2017 = true)
    (hc : ¬ (param.dilate[0]? = some 1 ∧ param.dilate[1]? = some 1 ∧ param.kernel.ndim = 2)) :
    CreateOp build param dtype in_shape out_shape ctx =
      CreateOp ⟨false, false⟩ param dtype in_shape out_shape ctx := by
  have hm : ((param.dilate[0]? == some 1 && param.dilate[1]? == some 1)
        && param.kernel.ndim == 2) = false := by
    rw [← Bool.not_eq_true, mkl_cond_iff]
    exact hc
  have hn : ∀ b : Bool, ((param.dilate[0]? == some 1 && param.dilate[1]? == some 1)
        && param.kernel.ndim == 2 && b) = false := by
    intro b
    rw [hm]
    rfl
  rw [CreateOp_plain]
  cases hnn : build.MXNET_USE_NNPACK
  · simp only [CreateOp, hb, hnn, hm, LOG_INFO, bind, Except.bind]
    simp only [Bool.false_eq_true, if_false, if_true]
    generalize MSHADOW_REAL_TYPE_SWITCH dtype _ none = x
    cases x <;> rfl
  · simp only [CreateOp, hb, hnn, hm, LOG_INFO, bind, Except.bind]
    simp only [hn, Bool.false_eq_true, if_false, if_true]
    generalize MSHADOW_REAL_TYPE_SWITCH dtype _ none = x
    cases x <;> rfl

/-- The condition of the NNPACK branch, as a proposition. -/
theorem nnpack_cond_iff (param : QConvolutionParam) (batch_size : Option Nat) :
    (((param.dilate[0]? == some 1 && param.dilate[1]? == some 1)
        && param.kernel.ndim == 2 && (!param.no_bias)
        && param.num_group == 1 && (batch_size == some 1 ||
        ((batch_size.any fun b => b > 1) && (param.stride[0]? == some 1) &&
        (param.stride[1]? == some 1)))) = true) ↔
      (param.dilate[0]? = some 1 ∧ param.dilate[1]? = some 1 ∧ param.kernel.ndim = 2 ∧
        param.no_bias = false ∧ param.num_group = 1 ∧
        (batch_size = some 1 ∨
          ((∃ b, batch_size = some b ∧ 1 < b) ∧ param.stride[0]? = some 1 ∧
            param.stride[1]? = some 1))) := by
  cases batch_size <;> simp [and_assoc]

/-- With NNPACK and without MKL, the NNPACK condition ends creation. -/
theorem CreateOp_nnpack_hit (param : QConvolutionParam) (dtype : Int)
    (in_shape out_shape : List TShape) (ctx : Context)
    (hc : param.dilate[0]? = some 1 ∧ param.dilate[1]? = some 1 ∧ param.kernel.ndim = 2 ∧
        param.no_bias = false ∧ param.num_group = 1 ∧
        ((in_shape[0]?.bind fun s => s[0]?) = some 1 ∨
          ((∃ b, (in_shape[0]?.bind fun s => s[0]?) = some b ∧ 1 < b) ∧
            param.stride[0]? = some 1 ∧ param.stride[1]? = some 1))) :
    CreateOp ⟨false, true⟩ param dtype in_shape out_shape ctx = .error (.fatal nnpack_msg) := by
  have hb := (nnpack_cond_iff param (in_shape[0]?.bind fun s => s[0]?)).2 hc
  simp only [CreateOp, bind, Except.bind, LOG_FATAL, pure, Except.pure]
  simp only [hb, Bool.false_eq_true, if_false, if_true]

/-- With NNPACK and without MKL, every other case reaches the real-type switch. -/
theorem CreateOp_nnpack_skip (param : QConvolutionParam) (dtype : Int)
    (in_shape out_shape : List TShape) (ctx : Context)
    (hc : ¬ (param.dilate[0]? = some 1 ∧ param.dilate[1]? = some 1 ∧ param.kernel.ndim = 2 ∧
        param.no_bias = false ∧ param.num_group = 1 ∧
        ((in_shape[0]?.bind fun s => s[0]?) = some 1 ∨
          ((∃ b, (in_shape[0]?.bind fun s => s[0]?) = some b ∧ 1 < b) ∧
            param.stride[0]? = some 1 ∧ param.stride[1]? = some 1)))) :
    CreateOp ⟨false, true⟩ param dtype in_shape out_shape ctx =
      CreateOp ⟨false, false⟩ param dtype in_shape out_shape ctx := by
  have hb := (not_congr (nnpack_cond_iff param (in_shape[0]?.bind fun s => s[0]?))).2 hc
  rw [Bool.not_eq_true] at hb
  rw [CreateOp_plain]
  simp only [CreateOp, bind, Except.bind, LOG_FATAL, pure, Except.pure]
  simp only [hb, Bool.false_eq_true, if_false, if_true]
  generalize MSHADOW_REAL_TYPE_SWITCH dtype _ none = x
  cases x <;> rfl

/-- The real-type switch never fails with the message of the NNPACK branch, nor with
that of the MKL branch. -/
theorem switch_msg_ne {α : Type} (dtype : Int) (body : DType → Except Failure α) (d : α)
    (hbody : ∀ T, ∃ a, body T = .ok a) :
    MSHADOW_REAL_TYPE_SWITCH dtype body d ≠ .error (.fatal nnpack_msg) ∧
    MSHADOW_REAL_TYPE_SWITCH dtype body d ≠ .error (.fatal mkl_msg) := by
  have hne : ∀ s : String, "Unknown type enum " ++ s ≠ nnpack_msg ∧
      "Unknown type enum " ++ s ≠ mkl_msg := by
    intro s
    constructor <;>
    · intro h
      have h2 := congrArg String.data h
      simp [nnpack_msg, mkl_msg, String.data_append] at h2
  unfold MSHADOW_REAL_TYPE_SWITCH
  split_ifs with h1 h2 h3 h4 h5
  · obtain ⟨a, ha⟩ := hbody .float
    simp [ha]
  · obtain ⟨a, ha⟩ := hbody .double
    simp [ha]
  · obtain ⟨a, ha⟩ := hbody .half_t
    simp [ha]
  · simp [LOG_FATAL, bind, Except.bind, nnpack_msg, mkl_msg]
  · simp [LOG_FATAL, bind, Except.bind, nnpack_msg, mkl_msg]
  · have := hne (toString dtype)
    simp only [LOG_FATAL, bind, Except.bind]
    constructor
    · intro h
      injection h with h
      injection h with h
      exact this.1 h
    · intro h
      injection h with h
      injection h with h
      exact this.2 h

/-- A failed or false type inference ends CreateOperatorEx after the call to InferType. -/
theorem CreateOperatorEx_no_type (self : QConvolutionProp) (build : Build)
    (D : CreateOpFn → CreateOpFn) (ctx : Context) (in_shape : List TShape) (in_type : List Int)
    (h : ¬ ∃ t, self.InferType in_type = .ok t ∧ t.result = true) :
    (∃ e, (self.CreateOperatorEx build D ctx in_shape in_type []).1 = .error e) ∧
      (self.CreateOperatorEx build D ctx in_shape in_type []).2 = [.InferType] := by
  cases ht : self.InferType in_type with
  | error e =>
    simp [QConvolutionProp.CreateOperatorEx, call, bind, Exec.andThen, Exec.update, Exec.lift, ht]
  | ok t =>
    have hr : t.result = false := by
      cases hres : t.result
      · rfl
      · exact absurd ⟨t, ht, hres⟩ h
    simp [QConvolutionProp.CreateOperatorEx, call, bind, Exec.andThen, Exec.update, Exec.lift,
      ht, CHECK, hr]

/-- After a successful type inference, a failed or false shape inference ends
CreateOperatorEx after the call to InferShape. -/
theorem CreateOperatorEx_no_shape (self : QConvolutionProp) (build : Build)
    (D : CreateOpFn → CreateOpFn) (ctx : Context) (in_shape : List TShape) (in_type : List Int)
    (t : Inferred Int) (ht : self.InferType in_type = .ok t) (hr : t.result = true)
    (h : ¬ ∃ sh, self.InferShape in_shape = .ok sh ∧ sh.result = true) :
    (∃ e, (self.CreateOperatorEx build D ctx in_shape in_type []).1 = .error e) ∧
      (self.CreateOperatorEx build D ctx in_shape in_type []).2 = [.InferType, .InferShape] := by
  cases hs : self.InferShape in_shape with
  | error e =>
    simp [QConvolutionProp.CreateOperatorEx, call, bind, Exec.andThen, Exec.update, Exec.lift,
      ht, CHECK, hr, hs]
  | ok sh =>
    have hr2 : sh.result = false := by
      cases hres : sh.result
      · rfl
      · exact absurd ⟨sh, hs, hres⟩ h
    simp [QConvolutionProp.CreateOperatorEx, call, bind, Exec.andThen, Exec.update, Exec.lift,
      ht, CHECK, hr, hs, hr2]

/-- After both inferences have succeeded, CreateOperatorEx is the dispatched call. -/
theorem CreateOperatorEx_dispatch (self : QConvolutionProp) (build : Build)
    (D : CreateOpFn → CreateOpFn) (ctx : Context) (in_shape : List TShape) (in_type : List Int)
    (t : Inferred Int) (sh : Inferred TShape) (dtype : Int)
    (ht : self.InferType in_type = .ok t) (hr : t.result = true)
    (hs : self.InferShape in_shape = .ok sh) (hr2 : sh.result = true)
    (hd : t.ins[0]? = some dtype) :
    self.CreateOperatorEx build D ctx in_shape in_type [] =
      (D (CreateOp build) self.param_ dtype sh.ins sh.outs ctx,
        [.InferType, .InferShape, .DO_BIND_DISPATCH]) := by
  simp [QConvolutionProp.CreateOperatorEx, call, bind, Exec.andThen, Exec.update, Exec.lift,
    ht, CHECK, hr, hs, hr2, hd]

end mxnet.op

namespace mxnet.op

open mshadow

/-- Without MKL and NNPACK, CreateOp returns a QConvolutionOp at the element type of the
flag, or fails: it returns no other operator and no NULL. -/
theorem CreateOp_plain_cases (param : QConvolutionParam) (dtype : Int)
    (in_shape out_shape : List TShape) (ctx : Context) :
    (dtype = kFloat32 ∧ CreateOp ⟨false, false⟩ param dtype in_shape out_shape ctx =
        .ok (some (.QConvolutionOp .float param))) ∨
    (dtype = kFloat64 ∧ CreateOp ⟨false, false⟩ param dtype in_shape out_shape ctx =
        .ok (some (.QConvolutionOp .double param))) ∨
    (dtype = kFloat16 ∧ CreateOp ⟨false, false⟩ param dtype in_shape out_shape ctx =
        .ok (some (.QConvolutionOp .half_t param))) ∨
    ((dtype ≠ kFloat32 ∧ dtype ≠ kFloat64 ∧ dtype ≠ kFloat16) ∧
      ∃ msg, CreateOp ⟨false, false⟩ param dtype in_shape out_shape ctx = .error (.fatal msg) ∧
        ∀ (param1 : QConvolutionParam) (in_shape1 out_shape1 : List TShape) (ctx1 : Context),
          CreateOp ⟨false, false⟩ param1 dtype in_shape1 out_shape1 ctx1 =
            .error (.fatal msg)) := by
  simp only [CreateOp_plain]
  unfold MSHADOW_REAL_TYPE_SWITCH
  split_ifs with h1 h2 h3 h4 h5
  · exact Or.inl ⟨h1, rfl⟩
  · exact Or.inr (Or.inl ⟨h2, rfl⟩)
  · exact Or.inr (Or.inr (Or.inl ⟨h3, rfl⟩))
  · exact Or.inr (Or.inr (Or.inr ⟨⟨h1, h2, h3⟩, _, rfl, fun _ _ _ _ => rfl⟩))
  · exact Or.inr (Or.inr (Or.inr ⟨⟨h1, h2, h3⟩, _, rfl, fun _ _ _ _ => rfl⟩))
  · exact Or.inr (Or.inr (Or.inr ⟨⟨h1, h2, h3⟩, _, rfl, fun _ _ _ _ => rfl⟩))

end mxnet.op

/-! ## The claims -/

open mshadow mxnet mxnet.op

/-- C1: a float forward call whose stride is not (1,1) fails with the message
"binary convolution currently only supported with stride==1" in the state it started in
(empty trace: no tensor read or written; no binary layer); with both strides 1 the
checks pass and the call goes on to construct the binary layer. -/
theorem C1_stride_check {V : Type} (data : Tensor 4 V) (wmat in_col temp_dst : Tensor 2 V)
    (out : Tensor 4 V) (param : QConvolutionParam) :
    ((param.stride[0]? ≠ some 1 ∨ param.stride[1]? ≠ some 1) →
      QConvolutionForward data wmat in_col temp_dst out param (ForwardState.init out) =
        (.error (.fatal "binary convolution currently only supported with stride==1"),
          { trace := [], binary_layer := none, out := out })) ∧
    ((param.stride[0]? = some 1 ∧ param.stride[1]? = some 1) →
      (QConvolutionForward data wmat in_col temp_dst out param (ForwardState.init out)).1
          ≠ .error (.fatal "binary convolution currently only supported with stride==1") ∧
      Event.BinaryLayer_new ∈
        (QConvolutionForward data wmat in_col temp_dst out param (ForwardState.init out)).2.trace ∧
      (QConvolutionForward data wmat in_col temp_dst out param
        (ForwardState.init out)).2.binary_layer.isSome = true) := by
  constructor
  · intro h
    rw [forward_run_fail data wmat in_col temp_dst out param _ h]
    rfl
  · rintro ⟨h0, h1⟩
    rw [forward_run_pass data wmat in_col temp_dst out param _ h0 h1]
    simp

/-- C1, at a stride of (2,1) and at a stride of (1,1). -/
theorem C1_stride_check_witness :
    ((Demo.strided.stride[0]? ≠ some 1 ∨ Demo.strided.stride[1]? ≠ some 1) ∧
      QConvolutionForward Demo.data Demo.wmat Demo.in_col Demo.temp_dst Demo.out Demo.strided
          (ForwardState.init Demo.out) =
        (.error (.fatal "binary convolution currently only supported with stride==1"),
          { trace := [], binary_layer := none, out := Demo.out })) ∧
    ((Demo.param.stride[0]? = some 1 ∧ Demo.param.stride[1]? = some 1) ∧
      (QConvolutionForward Demo.data Demo.wmat Demo.in_col Demo.temp_dst Demo.out Demo.param
          (ForwardState.init Demo.out)).1
          ≠ .error (.fatal "binary convolution currently only supported with stride==1") ∧
      Event.BinaryLayer_new ∈
        (QConvolutionForward Demo.data Demo.wmat Demo.in_col Demo.temp_dst Demo.out Demo.param
          (ForwardState.init Demo.out)).2.trace ∧
      (QConvolutionForward Demo.data Demo.wmat Demo.in_col Demo.temp_dst Demo.out Demo.param
        (ForwardState.init Demo.out)).2.binary_layer.isSome = true) :=
  ⟨⟨Or.inl (by decide),
      (C1_stride_check Demo.data Demo.wmat Demo.in_col Demo.temp_dst Demo.out Demo.strided).1
        (Or.inl (by decide))⟩,
    ⟨⟨rfl, rfl⟩,
      (C1_stride_check Demo.data Demo.wmat Demo.in_col Demo.temp_dst Demo.out Demo.param).2
        ⟨rfl, rfl⟩⟩⟩

/-- C2: a call of QConvolutionForward at an element type other than float resolves to the
generic overload, which fails with "only float supported" in the state it started in:
empty trace (no tensor read or written), no binary layer, out as passed. -/
theorem C2_only_float {V : Type} (T : DType) (hT : T ≠ .float) (data : Tensor 4 V)
    (wmat in_col temp_dst : Tensor 2 V) (out : Tensor 4 V) (param : QConvolutionParam) :
    QConvolutionForward_call T data wmat in_col temp_dst out param (ForwardState.init out) =
      (.error (.fatal "only float supported"),
        { trace := [], binary_layer := none, out := out }) := by
  simp [QConvolutionForward_call, hT, QConvolutionForward_generic, Exec.lift, CHECK,
    ForwardState.init]

/-- C2, at double. -/
theorem C2_only_float_witness :
    DType.double ≠ DType.float ∧
    QConvolutionForward_call .double Demo.data Demo.wmat Demo.in_col Demo.temp_dst Demo.out
        Demo.param (ForwardState.init Demo.out) =
      (.error (.fatal "only float supported"),
        { trace := [], binary_layer := none, out := Demo.out }) :=
  ⟨by decide, C2_only_float .double (by decide) Demo.data Demo.wmat Demo.in_col Demo.temp_dst
    Demo.out Demo.param⟩

/-- C3: the float forward call never writes out. On every input the output tensor after
the call is the one passed in, and the trace holds neither the XNOR multiply nor a
get_output; the call on the 2x2 example with stride (1,1) completes, so a completed call
leaves the previous contents of out in place. -/
theorem C3_out_not_written :
    (∀ (V : Type) (data : Tensor 4 V) (wmat in_col temp_dst : Tensor 2 V) (out : Tensor 4 V)
      (param : QConvolutionParam),
      (QConvolutionForward data wmat in_col temp_dst out param (ForwardState.init out)).2.out
          = out ∧
      Event.xnor_forward ∉
        (QConvolutionForward data wmat in_col temp_dst out param (ForwardState.init out)).2.trace ∧
      ∀ t, Event.get_output t ∉
        (QConvolutionForward data wmat in_col temp_dst out param
          (ForwardState.init out)).2.trace) ∧
    (QConvolutionForward Demo.data Demo.wmat Demo.in_col Demo.temp_dst Demo.out Demo.param
        (ForwardState.init Demo.out)).1 = .ok () ∧
    (QConvolutionForward Demo.data Demo.wmat Demo.in_col Demo.temp_dst Demo.out Demo.param
        (ForwardState.init Demo.out)).2.out.dptr_ = List.replicate 10 7 := by
  refine ⟨?_, rfl, rfl⟩
  intro V data wmat in_col temp_dst out param
  by_cases h : param.stride[0]? = some 1 ∧ param.stride[1]? = some 1
  · rw [forward_run_pass data wmat in_col temp_dst out param _ h.1 h.2]
    simp [ForwardState.init]
  · have h2 : param.stride[0]? ≠ some 1 ∨ param.stride[1]? ≠ some 1 := by
      by_cases h0 : param.stride[0]? = some 1
      · exact Or.inr fun h1 => h ⟨h0, h1⟩
      · exact Or.inl h0
    rw [forward_run_fail data wmat in_col temp_dst out param _ h2]
    simp [ForwardState.init]

/-- C4: on a weight matrix of shape [2, 4] (M = 2, K = 4) and a result matrix of shape
[2, 5] (P = 5), with stride (1,1), the binary layer is constructed with m = 4, the second
dimension of wmat, and with n and k read at index 2 of a 2-D shape, past its end: not
with m = 2, n = 4, k = 5. -/
theorem C4_layer_dimensions :
    Demo.wmat.shape_ = [2, 4] ∧ Demo.temp_dst.shape_ = [2, 5] ∧
    Demo.param.stride = [1, 1] ∧
    ((QConvolutionForward Demo.data Demo.wmat Demo.in_col Demo.temp_dst Demo.out Demo.param
        (ForwardState.init Demo.out)).2.binary_layer.map fun l => (l.m, l.n, l.k)) =
      some (some 4, none, none) := by
  exact ⟨rfl, rfl, rfl, rfl⟩

/-- C6: in a build without MKL and NNPACK, CreateOp<cpu> returns a non-null QConvolutionOp at
float, double or half_t for the flags kFloat32, kFloat64 and kFloat16, and fails fatally for
every other dtype; whether it fails, the failure, and the element type of the operator are
the same for every other parameter set, input shapes, output shapes and context. -/
theorem C6_CreateOp_by_dtype (param : QConvolutionParam) (dtype : Int)
    (in_shape out_shape : List TShape) (ctx : Context) :
    (dtype = kFloat32 → CreateOp ⟨false, false⟩ param dtype in_shape out_shape ctx =
        .ok (some (.QConvolutionOp .float param))) ∧
    (dtype = kFloat64 → CreateOp ⟨false, false⟩ param dtype in_shape out_shape ctx =
        .ok (some (.QConvolutionOp .double param))) ∧
    (dtype = kFloat16 → CreateOp ⟨false, false⟩ param dtype in_shape out_shape ctx =
        .ok (some (.QConvolutionOp .half_t param))) ∧
    ((dtype ≠ kFloat32 ∧ dtype ≠ kFloat64 ∧ dtype ≠ kFloat16) →
      ∃ msg, CreateOp ⟨false, false⟩ param dtype in_shape out_shape ctx = .error (.fatal msg)) ∧
    (∀ (param1 : QConvolutionParam) (in_shape1 out_shape1 : List TShape) (ctx1 : Context),
      (∀ T, CreateOp ⟨false, false⟩ param dtype in_shape out_shape ctx =
            .ok (some (.QConvolutionOp T param)) ↔
          CreateOp ⟨false, false⟩ param1 dtype in_shape1 out_shape1 ctx1 =
            .ok (some (.QConvolutionOp T param1))) ∧
      (∀ e, CreateOp ⟨false, false⟩ param dtype in_shape out_shape ctx = .error e ↔
          CreateOp ⟨false, false⟩ param1 dtype in_shape1 out_shape1 ctx1 = .error e)) := by
  refine ⟨?_, ?_, ?_, ?_, ?_⟩
  · intro h
    subst h
    rfl
  · intro h
    subst h
    rfl
  · intro h
    subst h
    rfl
  · intro h
    rcases CreateOp_plain_cases param dtype in_shape out_shape ctx with
      h1 | h1 | h1 | ⟨_, msg, hm, _⟩
    · exact absurd h1.1 h.1
    · exact absurd h1.1 h.2.1
    · exact absurd h1.1 h.2.2
    · exact ⟨msg, hm⟩
  · intro param1 in_shape1 out_shape1 ctx1
    simp only [CreateOp_plain]
    unfold MSHADOW_REAL_TYPE_SWITCH
    split_ifs with h1 h2 h3 h4 h5 <;>
      simp [LOG_FATAL, bind, Except.bind, pure, Except.pure]

/-- C6, at the flags 0 (float), 1 (double), 2 (half_t) and 3 (uint8_t). -/
theorem C6_CreateOp_by_dtype_witness :
    CreateOp ⟨false, false⟩ Demo.param 0 Demo.in_shape [] Demo.ctx =
        .ok (some (.QConvolutionOp .float Demo.param)) ∧
    CreateOp ⟨false, false⟩ Demo.param 1 Demo.in_shape [] Demo.ctx =
        .ok (some (.QConvolutionOp .double Demo.param)) ∧
    CreateOp ⟨false, false⟩ Demo.param 2 Demo.in_shape [] Demo.ctx =
        .ok (some (.QConvolutionOp .half_t Demo.param)) ∧
    ((3 : Int) ≠ kFloat32 ∧ (3 : Int) ≠ kFloat64 ∧ (3 : Int) ≠ kFloat16) ∧
    ∃ msg, CreateOp ⟨false, false⟩ Demo.param 3 Demo.in_shape [] Demo.ctx =
        .error (.fatal msg) :=
  ⟨(C6_CreateOp_by_dtype Demo.param 0 Demo.in_shape [] Demo.ctx).1 rfl,
    (C6_CreateOp_by_dtype Demo.param 1 Demo.in_shape [] Demo.ctx).2.1 rfl,
    (C6_CreateOp_by_dtype Demo.param 2 Demo.in_shape [] Demo.ctx).2.2.1 rfl,
    ⟨by decide, by decide, by decide⟩,
    (C6_CreateOp_by_dtype Demo.param 3 Demo.in_shape [] Demo.ctx).2.2.2.1
      ⟨by decide, by decide, by decide⟩⟩

/-- C7: in a build with MKL, CreateOp<cpu> fails with "QConvolution not supported with MKL"
for every dtype when dilate is (1,1) and the kernel is 2-dimensional; for every other
parameter set the result is that of the build without MKL and NNPACK (the generic
QConvolutionOp creation); and it never returns an MKLConvolutionOp. -/
theorem C7_mkl_branch (build : Build) (hb : build.MXNET_USE_MKL2017 = true)
    (param : QConvolutionParam) (dtype : Int) (in_shape out_shape : List TShape)
    (ctx : Context) :
    ((param.dilate[0]? = some 1 ∧ param.dilate[1]? = some 1 ∧ param.kernel.ndim = 2) →
      CreateOp build param dtype in_shape out_shape ctx =
        .error (.fatal "QConvolution not supported with MKL")) ∧
    (¬ (param.dilate[0]? = some 1 ∧ param.dilate[1]? = some 1 ∧ param.kernel.ndim = 2) →
      CreateOp build param dtype in_shape out_shape ctx =
        CreateOp ⟨false, false⟩ param dtype in_shape out_shape ctx) ∧
    (∀ T p, CreateOp build param dtype in_shape out_shape ctx ≠
        .ok (some (.MKLConvolutionOp T p))) := by
  refine ⟨fun hc => CreateOp_mkl_hit build param dtype in_shape out_shape ctx hb hc,
    fun hc => CreateOp_mkl_skip build param dtype in_shape out_shape ctx hb hc, ?_⟩
  intro T p
  by_cases hc : param.dilate[0]? = some 1 ∧ param.dilate[1]? = some 1 ∧ param.kernel.ndim = 2
  · rw [CreateOp_mkl_hit build param dtype in_shape out_shape ctx hb hc]
    simp
  · rw [CreateOp_mkl_skip build param dtype in_shape out_shape ctx hb hc]
    rcases CreateOp_plain_cases param dtype in_shape out_shape ctx with
      h | h | h | ⟨_, msg, h, _⟩
    · rw [h.2]
      simp
    · rw [h.2]
      simp
    · rw [h.2]
      simp
    · rw [h]
      simp

/-- C7, in a build with MKL only: the 2x2 configuration with dilation (1,1) at float, and
the same with dilation (2,2). -/
theorem C7_mkl_branch_witness :
    CreateOp ⟨true, false⟩ Demo.param kFloat32 Demo.in_shape [] Demo.ctx =
        .error (.fatal "QConvolution not supported with MKL") ∧
    CreateOp ⟨true, false⟩ Demo.dilated kFloat32 Demo.in_shape [] Demo.ctx =
        CreateOp ⟨false, false⟩ Demo.dilated kFloat32 Demo.in_shape [] Demo.ctx :=
  ⟨(C7_mkl_branch ⟨true, false⟩ rfl Demo.param kFloat32 Demo.in_shape [] Demo.ctx).1
      ⟨rfl, rfl, rfl⟩,
    (C7_mkl_branch ⟨true, false⟩ rfl Demo.dilated kFloat32 Demo.in_shape [] Demo.ctx).2.1
      (by decide)⟩

/-- C8: in a build with NNPACK and without MKL, CreateOp<cpu> fails with
"QConvolution not supported with NNPACK" exactly when dilate is (1,1), the kernel is
2-dimensional, bias is enabled, num_group is 1 and the batch size (first entry of the
first input shape) is 1, or is greater than 1 with stride (1,1); in every other case the
result is that of the build without MKL and NNPACK; it never returns an
NNPACKConvolutionOp. -/
theorem C8_nnpack_branch (param : QConvolutionParam) (dtype : Int)
    (in_shape out_shape : List TShape) (ctx : Context) :
    (CreateOp ⟨false, true⟩ param dtype in_shape out_shape ctx =
        .error (.fatal "QConvolution not supported with NNPACK") ↔
      (param.dilate[0]? = some 1 ∧ param.dilate[1]? = some 1 ∧ param.kernel.ndim = 2 ∧
        param.no_bias = false ∧ param.num_group = 1 ∧
        ((in_shape[0]?.bind fun s => s[0]?) = some 1 ∨
          ((∃ b, (in_shape[0]?.bind fun s => s[0]?) = some b ∧ 1 < b) ∧
            param.stride[0]? = some 1 ∧ param.stride[1]? = some 1)))) ∧
    (¬ (param.dilate[0]? = some 1 ∧ param.dilate[1]? = some 1 ∧ param.kernel.ndim = 2 ∧
        param.no_bias = false ∧ param.num_group = 1 ∧
        ((in_shape[0]?.bind fun s => s[0]?) = some 1 ∨
          ((∃ b, (in_shape[0]?.bind fun s => s[0]?) = some b ∧ 1 < b) ∧
            param.stride[0]? = some 1 ∧ param.stride[1]? = some 1))) →
      CreateOp ⟨false, true⟩ param dtype in_shape out_shape ctx =
        CreateOp ⟨false, false⟩ param dtype in_shape out_shape ctx) ∧
    (∀ T p, CreateOp ⟨false, true⟩ param dtype in_shape out_shape ctx ≠
        .ok (some (.NNPACKConvolutionOp T p))) := by
  have hplain : CreateOp ⟨false, false⟩ param dtype in_shape out_shape ctx ≠
      .error (.fatal nnpack_msg) := by
    rw [CreateOp_plain]
    exact (switch_msg_ne dtype _ none fun T => ⟨_, rfl⟩).1
  refine ⟨⟨fun h => ?_, fun hc => CreateOp_nnpack_hit param dtype in_shape out_shape ctx hc⟩,
    fun hc => CreateOp_nnpack_skip param dtype in_shape out_shape ctx hc, ?_⟩
  · by_contra hc
    rw [CreateOp_nnpack_skip param dtype in_shape out_shape ctx hc] at h
    exact hplain h
  · intro T p
    by_cases hc : param.dilate[0]? = some 1 ∧ param.dilate[1]? = some 1 ∧
        param.kernel.ndim = 2 ∧ param.no_bias = false ∧ param.num_group = 1 ∧
        ((in_shape[0]?.bind fun s => s[0]?) = some 1 ∨
          ((∃ b, (in_shape[0]?.bind fun s => s[0]?) = some b ∧ 1 < b) ∧
            param.stride[0]? = some 1 ∧ param.stride[1]? = some 1))
    · rw [CreateOp_nnpack_hit param dtype in_shape out_shape ctx hc]
      simp
    · rw [CreateOp_nnpack_skip param dtype in_shape out_shape ctx hc]
      rcases CreateOp_plain_cases param dtype in_shape out_shape ctx with
        h | h | h | ⟨_, msg, h, _⟩
      · rw [h.2]
        simp
      · rw [h.2]
        simp
      · rw [h.2]
        simp
      · rw [h]
        simp

/-- C8, in a build with NNPACK only: the 2x2 configuration with dilation (2,2) at float
falls through to the generic creation, and with dilation (1,1), bias, one group and
batch size 1 it is refused. -/
theorem C8_nnpack_branch_witness :
    CreateOp ⟨false, true⟩ Demo.dilated kFloat32 Demo.in_shape [] Demo.ctx =
      CreateOp ⟨false, false⟩ Demo.dilated kFloat32 Demo.in_shape [] Demo.ctx ∧
    CreateOp ⟨false, true⟩ Demo.param kFloat32 Demo.in_shape [] Demo.ctx =
      .error (.fatal "QConvolution not supported with NNPACK") :=
  ⟨(C8_nnpack_branch Demo.dilated kFloat32 Demo.in_shape [] Demo.ctx).2.1 (by decide),
    (C8_nnpack_branch Demo.param kFloat32 Demo.in_shape [] Demo.ctx).1.2
      ⟨rfl, rfl, rfl, rfl, rfl, Or.inl rfl⟩⟩

/-- C9: CreateOperatorEx calls InferType first. If it fails or returns false the call fails
having called neither InferShape nor the dispatch of CreateOp; if InferType succeeds and
InferShape fails or returns false the call fails without the dispatch of CreateOp;
otherwise the result is that of DO_BIND_DISPATCH on CreateOp with the stored parameters,
the first entry of in_type, the input shapes and the inferred output shapes, which is
CreateOp<cpu> on these arguments when the macro binds the context to cpu. -/
theorem C9_CreateOperatorEx_order (self : QConvolutionProp) (build : Build)
    (D : CreateOpFn → CreateOpFn) (ctx : Context) (in_shape : List TShape)
    (in_type : List Int) :
    ((¬ ∃ t, self.InferType in_type = .ok t ∧ t.result = true) →
      (∃ e, (self.CreateOperatorEx build D ctx in_shape in_type []).1 = .error e) ∧
      (self.CreateOperatorEx build D ctx in_shape in_type []).2 = [.InferType]) ∧
    (∀ t, self.InferType in_type = .ok t → t.result = true →
      (¬ ∃ sh, self.InferShape in_shape = .ok sh ∧ sh.result = true) →
      (∃ e, (self.CreateOperatorEx build D ctx in_shape in_type []).1 = .error e) ∧
      (self.CreateOperatorEx build D ctx in_shape in_type []).2 = [.InferType, .InferShape]) ∧
    (∀ t sh dtype, self.InferType in_type = .ok t → t.result = true →
      self.InferShape in_shape = .ok sh → sh.result = true → t.ins[0]? = some dtype →
      self.CreateOperatorEx build D ctx in_shape in_type [] =
        (D (CreateOp build) self.param_ dtype sh.ins sh.outs ctx,
          [.InferType, .InferShape, .DO_BIND_DISPATCH]) ∧
      ((∀ Method : CreateOpFn, D Method self.param_ dtype sh.ins sh.outs ctx =
          Method self.param_ dtype sh.ins sh.outs ctx) →
        (self.CreateOperatorEx build D ctx in_shape in_type []).1 =
          CreateOp build self.param_ dtype sh.ins sh.outs ctx)) := by
  refine ⟨fun h => CreateOperatorEx_no_type self build D ctx in_shape in_type h,
    fun t ht hr h => CreateOperatorEx_no_shape self build D ctx in_shape in_type t ht hr h, ?_⟩
  intro t sh dtype ht hr hs hr2 hd
  have hrun := CreateOperatorEx_dispatch self build D ctx in_shape in_type t sh dtype ht hr
    hs hr2 hd
  refine ⟨hrun, fun hD => ?_⟩
  rw [hrun]
  exact hD (CreateOp build)

/-- C9, on three property objects: type inference returning false, shape inference
returning false, and both succeeding with float inputs on a cpu-bound dispatch. -/
theorem C9_CreateOperatorEx_order_witness :
    ((∃ e, (Demo.prop_no_type.CreateOperatorEx Demo.plain Demo.bind_cpu Demo.ctx Demo.in_shape
          [0, 0, 0] []).1 = .error e) ∧
      (Demo.prop_no_type.CreateOperatorEx Demo.plain Demo.bind_cpu Demo.ctx Demo.in_shape
          [0, 0, 0] []).2 = [.InferType]) ∧
    ((∃ e, (Demo.prop_no_shape.CreateOperatorEx Demo.plain Demo.bind_cpu Demo.ctx Demo.in_shape
          [0, 0, 0] []).1 = .error e) ∧
      (Demo.prop_no_shape.CreateOperatorEx Demo.plain Demo.bind_cpu Demo.ctx Demo.in_shape
          [0, 0, 0] []).2 = [.InferType, .InferShape]) ∧
    (Demo.prop.CreateOperatorEx Demo.plain Demo.bind_cpu Demo.ctx Demo.in_shape [0, 0, 0] []).1 =
      CreateOp Demo.plain Demo.param 0 Demo.in_shape [[1, 2, 2, 2]] Demo.ctx :=
  ⟨(C9_CreateOperatorEx_order Demo.prop_no_type Demo.plain Demo.bind_cpu Demo.ctx Demo.in_shape
      [0, 0, 0]).1 (by rintro ⟨t, ht, hr⟩; cases ht; cases hr),
    (C9_CreateOperatorEx_order Demo.prop_no_shape Demo.plain Demo.bind_cpu Demo.ctx Demo.in_shape
      [0, 0, 0]).2.1 _ rfl rfl (by rintro ⟨t, ht, hr⟩; cases ht; cases hr),
    ((C9_CreateOperatorEx_order Demo.prop Demo.plain Demo.bind_cpu Demo.ctx Demo.in_shape
      [0, 0, 0]).2.2 _ _ 0 rfl rfl rfl rfl rfl).2 (fun _ => rfl)⟩

/-- C10: on 2-D tensors wmat and temp_dst, with stride (1,1), the float forward call reads
wmat.shape_[2] and temp_dst.shape_[2], index 2 of shapes of rank 2: both reads are past the
end and give none. The reads of data, at 1, 2 and 3, and of wmat at 1 are within rank. -/
theorem C10_shape_reads :
    (QConvolutionForward Demo.data Demo.wmat Demo.in_col Demo.temp_dst Demo.out Demo.param
        (ForwardState.init Demo.out)).2.trace =
      [.shape_read .data 1 (some 1), .shape_read .data 2 (some 3), .shape_read .data 3 (some 3),
       .shape_read .wmat 1 (some 4), .shape_read .wmat 2 none, .shape_read .temp_dst 2 none,
       .BinaryLayer_new, .set_input_as_col .in_col, .set_weights .wmat] ∧
    Demo.wmat.shape_.length = 2 ∧ Demo.temp_dst.shape_.length = 2 := by
  exact ⟨rfl, rfl, rfl⟩
